import Mathlib

/-!
# Verification of the ADS-B log analyzer ingestion pipeline

Shallow embedding of `src/prog1.py`: the line parser `parse_ads_b_line`,
the per-frame field extractors (`get_altitude`, `get_velocity`, `get_course`,
`get_selected_altitude`, `get_altitude_difference`, `get_baro_correction`,
`get_callsign`) and the main ingestion loop (per-aircraft time tracking,
range-filtered telemetry accumulation, CPR even/odd pairing, callsign and
autopilot-mode bookkeeping).

Modelling conventions:
* Timestamps and decoded numeric values are rationals (`ℚ`); the program
  stores them as 64-bit floats but no verified property depends on rounding.
* The external frame decoder (the `pyModeS` library) is an abstract
  `Decoder` structure of pure functions.  An operation that either raises or
  returns `None` in Python is modelled as returning `none`; per the decoder
  contract its operations are pure functions of the payload.
* Python dictionaries keyed by strings are modelled as total functions from
  `String`, with `upd` for pointwise update.  `dict.setdefault(k, []).append`
  becomes "update `k` to old list ++ [new]".
* Python string operations are modelled at the character-list level:
  `str.split()` (whitespace split dropping empty tokens) is `splitWS`,
  `str.upper()` is `List.map pyUpperChar`, `str.strip()` is `pyStripL`, and
  `str.replace(" ", "")` is `List.filter (· ≠ ' ')` (removing every space).
-/

/-- Characters treated as whitespace by the split/strip operations
(space, tab, newline, carriage return). -/
def isWS (c : Char) : Bool := c == ' ' || c == '\t' || c == '\n' || c == '\r'

/-- Auxiliary accumulator-based splitter: `acc` holds the (reversed) current
token. Mirrors Python `str.split()` with no argument. -/
def splitWSAux : List Char → List Char → List (List Char)
  | [], acc => if acc.isEmpty then [] else [acc.reverse]
  | c :: cs, acc =>
    if isWS c then
      if acc.isEmpty then splitWSAux cs [] else acc.reverse :: splitWSAux cs []
    else splitWSAux cs (c :: acc)

/-- Python `line.split()`: split on runs of whitespace, dropping empty
tokens.  Note `line.strip().split()` coincides with `line.split()`, so the
source's leading `strip()` is a no-op for tokenisation. -/
def splitWS (cs : List Char) : List (List Char) := splitWSAux cs []

/-- ASCII upper-casing of one character, as Python `str.upper` acts on the
ASCII range: lowercase letters (codes 97..122) are shifted down by 32,
everything else is unchanged. -/
def pyUpperChar (c : Char) : Char :=
  if 97 ≤ c.toNat ∧ c.toNat ≤ 122 then Char.ofNat (c.toNat - 32) else c

/-- Python `str.strip()`: drop leading and trailing whitespace. -/
def pyStripL (cs : List Char) : List Char :=
  ((cs.dropWhile (fun c => isWS c)).reverse.dropWhile (fun c => isWS c)).reverse

/-- ASCII decimal digit test. -/
def isDigitChar (c : Char) : Bool := 48 ≤ c.toNat ∧ c.toNat ≤ 57

/-- Numeric value of a decimal digit character. -/
def digitVal (c : Char) : Nat := c.toNat - 48

/-- Value of a digit string read most-significant first. -/
def digitsVal (cs : List Char) : Nat := cs.foldl (fun a c => 10 * a + digitVal c) 0

/-- Models acceptance of an unsigned numeric token by the external float
parser (`np.float64` applied to one whitespace-free token): optional integer
digits, optionally followed by a point and fractional digits, at least one
digit overall.  (Exponent and inf/nan spellings of the float grammar are not
exercised by any property below.) -/
def parseUnsignedDecimal? (cs : List Char) : Option ℚ :=
  let ip := cs.takeWhile isDigitChar
  let rest := cs.dropWhile isDigitChar
  match rest with
  | [] => if ip.isEmpty then none else some (digitsVal ip : ℚ)
  | '.' :: fp =>
    if fp.all isDigitChar ∧ (¬ ip.isEmpty ∨ ¬ fp.isEmpty) then
      some ((digitsVal ip : ℚ) + (digitsVal fp : ℚ) / ((10 : ℚ) ^ fp.length))
    else none
  | _ => none

/-- Models the external numeric parse of the first token (`np.float64`),
returning `none` exactly when the token does not parse as a decimal number. -/
def parseDecimal? (cs : List Char) : Option ℚ :=
  match cs with
  | [] => none
  | '+' :: rest => parseUnsignedDecimal? rest
  | '-' :: rest => (parseUnsignedDecimal? rest).map (fun q => -q)
  | _ :: _ => parseUnsignedDecimal? cs

/-- Constant `MAX_MESSAGE_LENGTH` from the source. -/
def MAX_MESSAGE_LENGTH : Nat := 14

/-- The hex-digit alphabet checked by the parser (after upper-casing). -/
def isHexChar (c : Char) : Bool := ("0123456789ABCDEF".toList).contains c

/-- Value of one hex digit (valid on the `isHexChar` alphabet). -/
def hexVal (c : Char) : Nat :=
  if isDigitChar c then c.toNat - 48 else c.toNat - 55

/-- Python `[int(s[i:i+2], 16) for i in range(0, len(s), 2)]`: successive two-digit
chunks; a trailing lone digit forms a one-digit chunk. -/
def hexChunksToBytes : List Char → List Nat
  | [] => []
  | [c] => [hexVal c]
  | c1 :: c2 :: rest => (16 * hexVal c1 + hexVal c2) :: hexChunksToBytes rest

/-- Python `' '.join(...)`: concatenate the tokens with a single space
between consecutive ones. -/
def joinSpace : List (List Char) → List Char
  | [] => []
  | [t] => t
  | t :: rest => t ++ ' ' :: joinSpace rest

/-- The `ADSBMessage` container class: timestamp, decoded payload bytes
(truncated to `MAX_MESSAGE_LENGTH`; the fixed-size zero-padded array is
modelled by the truncated byte list), and the stored length. -/
structure ADSBMessage where
  timestamp : ℚ
  message : List Nat
  message_length : Nat
deriving DecidableEq, Repr

/-- The parser `parse_ads_b_line`: split the line on whitespace; fewer than two tokens,
an unparseable first token, an empty payload or a non-hex character cause
`None`.  On success returns the message container, the spaced upper-cased
payload and the space-free payload, exactly as the source's
`(msg, message_spaced, message_str)`. -/
def parse_ads_b_line (line : String) : Option (ADSBMessage × String × String) :=
  match splitWS line.data with
  | [] => none
  | p0 :: rest =>
    if rest.isEmpty then none
    else
      match parseDecimal? p0 with
      | none => none
      | some timestamp =>
        let message_spaced := pyStripL ((joinSpace rest).map pyUpperChar)
        let message_str := message_spaced.filter (fun c => c ≠ ' ')
        if message_str.isEmpty ∨ ¬ (message_str.all isHexChar) then none
        else
          let bytes_list := hexChunksToBytes message_str
          let mlen := min bytes_list.length MAX_MESSAGE_LENGTH
          some (⟨timestamp, bytes_list.take mlen, mlen⟩,
                String.mk message_spaced, String.mk message_str)

/-- Dictionary `MODE_MAP`: autopilot mode flag characters to display tokens. -/
def MODE_MAP (c : Char) : Option String :=
  if c = 'U' then some "AP"
  else if c = '/' then some "ALT"
  else if c = 'M' then some "VNAV"
  else if c = 'F' then some "LNAV"
  else if c = 'P' then some "APP"
  else if c = 'T' then some "TCAS"
  else if c = 'C' then some "HDG"
  else none

/-- Python `{MODE_MAP.get(m, m) for m in raw_modes}`: map each raw flag through
`MODE_MAP` (defaulting to the flag itself) and collect into a set. -/
def processModes (raw : List Char) : Finset String :=
  (raw.map (fun m => (MODE_MAP m).getD (String.mk [m]))).toFinset

/-- The external frame decoder (the `pyModeS` collaborator), §4.2 of the
design: pure functions of the payload.  `none` models both "no value" and a
raised decoding exception, which every call site of the source converts to
the same skip behaviour. -/
structure Decoder where
  df : String → Option Int
  icao : String → Option String
  typecode : String → Option Int
  oe_flag : String → Option (Fin 2)
  altitude : String → Option ℚ
  velocity : String → Option (Option ℚ × Option ℚ × Option ℚ × String)
  callsign : String → Option String
  selected_altitude : String → Option (Option ℚ × List Char)
  altitude_diff : String → Option ℚ
  baro_pressure_setting : String → Option ℚ
  position : String → String → ℚ → ℚ → Option (ℚ × ℚ)

/-- Extractor `get_altitude`: barometric altitude of a DF 17/18, type-code 9..18
frame; `none` otherwise. -/
def get_altitude (D : Decoder) (s : String) : Option ℚ :=
  match D.df s with
  | none => none
  | some df =>
    if df = 17 ∨ df = 18 then
      match D.typecode s with
      | none => none
      | some tc => if 9 ≤ tc ∧ tc ≤ 18 then D.altitude s else none
    else none

/-- Extractor `get_velocity`: ground speed of a DF 17/18, type-code 19 frame. -/
def get_velocity (D : Decoder) (s : String) : Option ℚ :=
  match D.df s with
  | none => none
  | some df =>
    if df = 17 ∨ df = 18 then
      match D.typecode s with
      | none => none
      | some tc =>
        if tc = 19 then
          match D.velocity s with
          | some (some spd, _, _, _) => some spd
          | _ => none
        else none
    else none

/-- Extractor `get_course`: heading of a DF 17/18, type-code 19 frame.  The heading
component is returned as-is (it may itself be absent); no range filter. -/
def get_course (D : Decoder) (s : String) : Option ℚ :=
  match D.df s with
  | none => none
  | some df =>
    if df = 17 ∨ df = 18 then
      match D.typecode s with
      | none => none
      | some tc =>
        if tc = 19 then
          match D.velocity s with
          | some (_, hdg, _, _) => hdg
          | none => none
        else none
    else none

/-- Extractor `get_selected_altitude`: selected altitude plus processed autopilot-mode
set of a DF 17/18, type-code 29 frame.  Returns `none` when the decoded
selected-altitude value is absent or outside [-2000, 50000] — in that case
the mode set is discarded together with the value. -/
def get_selected_altitude (D : Decoder) (s : String) : Option (ℚ × Finset String) :=
  match D.df s with
  | none => none
  | some df =>
    if df = 17 ∨ df = 18 then
      match D.typecode s with
      | none => none
      | some tc =>
        if tc = 29 then
          match D.selected_altitude s with
          | none => none
          | some (selAlt, rawModes) =>
            match selAlt with
            | some v =>
              if -2000 ≤ v ∧ v ≤ 50000 then some (v, processModes rawModes) else none
            | none => none
        else none
    else none

/-- Extractor `get_altitude_difference`: altitude difference of a type-code 19 frame,
range-filtered to [-2500, 2500]. -/
def get_altitude_difference (D : Decoder) (s : String) : Option ℚ :=
  match D.df s with
  | none => none
  | some df =>
    if df = 17 ∨ df = 18 then
      match D.typecode s with
      | none => none
      | some tc =>
        if tc = 19 then
          match D.altitude_diff s with
          | none => none
          | some d => if -2500 ≤ d ∧ d ≤ 2500 then some d else none
        else none
    else none

/-- Extractor `get_baro_correction`: barometric pressure setting of a type-code 29
frame, range-filtered to [800, 1100]. -/
def get_baro_correction (D : Decoder) (s : String) : Option ℚ :=
  match D.df s with
  | none => none
  | some df =>
    if df = 17 ∨ df = 18 then
      match D.typecode s with
      | none => none
      | some tc =>
        if tc = 29 then
          match D.baro_pressure_setting s with
          | none => none
          | some b => if 800 ≤ b ∧ b ≤ 1100 then some b else none
        else none
    else none

/-- Extractor `get_callsign`: callsign of a DF 17/18, type-code 1..4 frame; a falsy
(absent or empty) decoded callsign yields `none`, otherwise the decoded
string restricted to its alphanumeric characters (which may be empty). -/
def get_callsign (D : Decoder) (s : String) : Option String :=
  match D.df s with
  | none => none
  | some df =>
    if df = 17 ∨ df = 18 then
      match D.typecode s with
      | none => none
      | some tc =>
        if 1 ≤ tc ∧ tc ≤ 4 then
          match D.callsign s with
          | none => none
          | some cs =>
            if cs = "" then none
            else some (String.mk (cs.data.filter Char.isAlphanum))
        else none
    else none

/-- An entry of the `icao_callsigns` dictionary, which the source uses
heterogeneously: plain callsign strings under the aircraft address key, and
autopilot-mode sets under the `"<address>_modes"` key. -/
inductive CsEntry where
  | cs (s : String)
  | modes (m : Finset String)
deriving DecidableEq

/-- The aggregation state: all dictionaries of the main loop, each modelled
as a total function from the key string (`setdefault`-style defaults are the
`none` / `[]` / `false` values). -/
structure AggState where
  icao_times : String → Option (ℚ × ℚ)
  icao_altitude : String → List (ℚ × ℚ)
  icao_speed : String → List (ℚ × ℚ)
  icao_callsigns : String → Option CsEntry
  icao_selected_altitude : String → List (ℚ × ℚ)
  icao_altitude_difference : String → List (ℚ × ℚ)
  icao_baro_correction : String → List (ℚ × ℚ)
  icao_has_selected_alt : String → Bool
  adsb_icao_list : String → Bool
  icao_positions : String → List (ℚ × ℚ × ℚ)
  icao_courses : String → List (ℚ × ℚ)
  cpr_messages : String → Option (Option (String × ℚ) × Option (String × ℚ))

/-- The empty dictionaries created before the main loop. -/
def initState : AggState where
  icao_times := fun _ => none
  icao_altitude := fun _ => []
  icao_speed := fun _ => []
  icao_callsigns := fun _ => none
  icao_selected_altitude := fun _ => []
  icao_altitude_difference := fun _ => []
  icao_baro_correction := fun _ => []
  icao_has_selected_alt := fun _ => false
  adsb_icao_list := fun _ => false
  icao_positions := fun _ => []
  icao_courses := fun _ => []
  cpr_messages := fun _ => none

/-- Pointwise dictionary update. -/
def upd {α : Type} (f : String → α) (k : String) (v : α) : String → α :=
  fun x => if x = k then v else f x

/-- Python `abs` on the modelled numeric type. -/
def pyAbs (q : ℚ) : ℚ := if q < 0 then -q else q

/-- Python `if target_icao and aa != target_icao: continue`. -/
def targetSkip (tgt : Option String) (aa : String) : Bool :=
  match tgt with
  | some t => aa ≠ t
  | none => false

/-- Python `cpr_messages[aa][oe_flag] = (message_str, msg.timestamp)`: store into
the even (0) or odd (1) slot, overwriting. -/
def setSlot (p : Option (String × ℚ) × Option (String × ℚ)) (oe : Fin 2)
    (v : String × ℚ) : Option (String × ℚ) × Option (String × ℚ) :=
  if oe = 0 then (some v, p.2) else (p.1, some v)

/-- The altitude branch of the type-code 9..18 case: append to
`icao_altitude` after the [-1000, 50000] range filter. -/
def altStep (D : Decoder) (s : AggState) (aa : String) (t : ℚ) (mstr : String) : AggState :=
  match get_altitude D mstr with
  | some alt =>
    if -1000 ≤ alt ∧ alt ≤ 50000 then
      { s with icao_altitude := upd s.icao_altitude aa (s.icao_altitude aa ++ [(t, alt)]) }
    else s
  | none => s

/-- The CPR pairing branch of the type-code 9..18 case.  `setdefault`
installs `[None, None]` if absent; the parity slot is overwritten; when both
slots are occupied and the two timestamps differ by less than 10 seconds a
resolution is attempted and the slots are cleared; otherwise (including the
stale `≥ 10` case) the slots are left as stored. -/
def cprStep (D : Decoder) (s : AggState) (aa : String) (t : ℚ) (mstr : String) : AggState :=
  match D.oe_flag mstr with
  | none =>
    { s with cpr_messages := upd s.cpr_messages aa (some ((s.cpr_messages aa).getD (none, none))) }
  | some oe =>
    match setSlot ((s.cpr_messages aa).getD (none, none)) oe (mstr, t) with
    | (some (m0, t0), some (m1, t1)) =>
      if pyAbs (t0 - t1) < 10 then
        match D.position m0 m1 t0 t1 with
        | some (la, lo) =>
          { s with
            icao_positions := upd s.icao_positions aa (s.icao_positions aa ++ [(t, la, lo)]),
            cpr_messages := upd s.cpr_messages aa (some (none, none)) }
        | none => { s with cpr_messages := upd s.cpr_messages aa (some (none, none)) }
      else
        { s with cpr_messages := upd s.cpr_messages aa (some (some (m0, t0), some (m1, t1))) }
    | slots2 => { s with cpr_messages := upd s.cpr_messages aa (some slots2) }

/-- The speed part of the type-code 19 case: [0, 1000] range filter. -/
def speedStep (D : Decoder) (s : AggState) (aa : String) (t : ℚ) (mstr : String) : AggState :=
  match get_velocity D mstr with
  | some gs =>
    if 0 ≤ gs ∧ gs ≤ 1000 then
      { s with icao_speed := upd s.icao_speed aa (s.icao_speed aa ++ [(t, gs)]) }
    else s
  | none => s

/-- The course part of the type-code 19 case: appended whenever present,
with no range filter. -/
def courseStep (D : Decoder) (s : AggState) (aa : String) (t : ℚ) (mstr : String) : AggState :=
  match get_course D mstr with
  | some c =>
    { s with icao_courses := upd s.icao_courses aa (s.icao_courses aa ++ [(t, c)]) }
  | none => s

/-- The altitude-difference part of the type-code 19 case. -/
def diffStep (D : Decoder) (s : AggState) (aa : String) (t : ℚ) (mstr : String) : AggState :=
  match get_altitude_difference D mstr with
  | some d =>
    { s with icao_altitude_difference := upd s.icao_altitude_difference aa (s.icao_altitude_difference aa ++ [(t, d)]) }
  | none => s

/-- The type-code 1..4 case: store a truthy extracted callsign, overwriting. -/
def identStep (D : Decoder) (s : AggState) (aa : String) (mstr : String) : AggState :=
  match get_callsign D mstr with
  | some cs =>
    if cs ≠ "" then { s with icao_callsigns := upd s.icao_callsigns aa (some (.cs cs)) }
    else s
  | none => s

/-- The baro-correction part of the type-code 29 case. -/
def baroStep (D : Decoder) (s : AggState) (aa : String) (t : ℚ) (mstr : String) : AggState :=
  match get_baro_correction D mstr with
  | some b =>
    { s with icao_baro_correction := upd s.icao_baro_correction aa (s.icao_baro_correction aa ++ [(t, b)]) }
  | none => s

/-- The selected-altitude append plus has-selected flag of the type-code 29
case. -/
def selAppend (s : AggState) (aa : String) (t : ℚ) (v : ℚ) : AggState :=
  { s with
    icao_selected_altitude := upd s.icao_selected_altitude aa (s.icao_selected_altitude aa ++ [(t, v)]),
    icao_has_selected_alt := upd s.icao_has_selected_alt aa true }

/-- The mode-set union of the type-code 29 case, run on the state after the
selected-altitude append: read the existing entry under `aa ++ "_modes"`,
union in the new modes, then run the baro branch.  A plain-string entry
would make the in-place `set.union` raise, skipping the baro branch. -/
def statusModes (D : Decoder) (s : AggState) (aa : String) (t : ℚ) (mstr : String)
    (modes : Finset String) : AggState :=
  match s.icao_callsigns (aa ++ "_modes") with
  | some (.cs _) => s
  | some (.modes m) =>
    baroStep D
      { s with icao_callsigns := upd s.icao_callsigns (aa ++ "_modes") (some (.modes (m ∪ modes))) } aa t mstr
  | none =>
    baroStep D
      { s with icao_callsigns := upd s.icao_callsigns (aa ++ "_modes") (some (.modes ((∅ : Finset String) ∪ modes))) } aa t mstr

/-- The type-code 29 case: when `get_selected_altitude` yields a value, the
selected-altitude series, the has-selected flag and the mode-set entry are
updated, then the baro branch runs; when it yields `none` (value absent or
out of range), the mode set is not touched and only the baro branch runs. -/
def statusStep (D : Decoder) (s : AggState) (aa : String) (t : ℚ) (mstr : String) : AggState :=
  match get_selected_altitude D mstr with
  | some (v, modes) => statusModes D (selAppend s aa t v) aa t mstr modes
  | none => baroStep D s aa t mstr

/-- Python `adsb_icao_list.add(aa)` and the first/last timestamp update. -/
def touch (s : AggState) (aa : String) (t : ℚ) : AggState :=
  { s with
    adsb_icao_list := upd s.adsb_icao_list aa true,
    icao_times := upd s.icao_times aa
      (some (match s.icao_times aa with
             | none => (t, t)
             | some (f, _) => (f, t))) }

/-- One iteration of the main loop after a successful parse: decode `df` and
the aircraft address (skipping the frame if either fails), keep only DF
17/18, apply the optional target filter, update the observed set and the
first/last timestamps, then dispatch on the type code (skipping the rest of
the frame if the type code cannot be decoded). -/
def processFrame (D : Decoder) (tgt : Option String) (s : AggState)
    (msg : ADSBMessage) (mstr : String) : AggState :=
  match D.df mstr, D.icao mstr with
  | some df, some aa =>
    if df = 17 ∨ df = 18 then
      if targetSkip tgt aa then s
      else
        let s1 := touch s aa msg.timestamp
        match D.typecode mstr with
        | some tc =>
          if 9 ≤ tc ∧ tc ≤ 18 then cprStep D (altStep D s1 aa msg.timestamp mstr) aa msg.timestamp mstr
          else if tc = 19 then
            diffStep D (courseStep D (speedStep D s1 aa msg.timestamp mstr) aa msg.timestamp mstr) aa msg.timestamp mstr
          else if 1 ≤ tc ∧ tc ≤ 4 then identStep D s1 aa mstr
          else if tc = 29 then statusStep D s1 aa msg.timestamp mstr
          else s1
        | none => s1
    else s
  | _, _ => s

/-- One iteration of the main loop on a raw input line: blank lines and
lines the parser rejects are skipped. -/
def processLine (D : Decoder) (tgt : Option String) (s : AggState) (line : String) : AggState :=
  if line.data.all (fun c => isWS c) then s
  else
    match parse_ads_b_line line with
    | none => s
    | some (msg, _, mstr) => processFrame D tgt s msg mstr

/-- The whole ingestion run over a log, in file order. -/
def runLog (D : Decoder) (tgt : Option String) (lines : List String) : AggState :=
  lines.foldl (processLine D tgt) initState

/-! ## Basic lemmas about the dictionary model and the step functions -/

@[simp] theorem upd_same {α : Type} (f : String → α) (k : String) (v : α) :
    upd f k v k = v := by simp [upd]

theorem upd_ne {α : Type} (f : String → α) (k : String) (v : α) (x : String)
    (h : x ≠ k) : upd f k v x = f x := by simp [upd, h]

theorem touch_altitude (s : AggState) (aa : String) (t : ℚ) :
    (touch s aa t).icao_altitude = s.icao_altitude := rfl

theorem touch_speed (s : AggState) (aa : String) (t : ℚ) :
    (touch s aa t).icao_speed = s.icao_speed := rfl

theorem touch_callsigns (s : AggState) (aa : String) (t : ℚ) :
    (touch s aa t).icao_callsigns = s.icao_callsigns := rfl

theorem touch_selected (s : AggState) (aa : String) (t : ℚ) :
    (touch s aa t).icao_selected_altitude = s.icao_selected_altitude := rfl

theorem touch_baro (s : AggState) (aa : String) (t : ℚ) :
    (touch s aa t).icao_baro_correction = s.icao_baro_correction := rfl

theorem touch_positions (s : AggState) (aa : String) (t : ℚ) :
    (touch s aa t).icao_positions = s.icao_positions := rfl

theorem touch_courses (s : AggState) (aa : String) (t : ℚ) :
    (touch s aa t).icao_courses = s.icao_courses := rfl

theorem touch_cpr (s : AggState) (aa : String) (t : ℚ) :
    (touch s aa t).cpr_messages = s.cpr_messages := rfl

theorem touch_times (s : AggState) (aa : String) (t : ℚ) :
    (touch s aa t).icao_times = upd s.icao_times aa
      (some (match s.icao_times aa with
             | none => (t, t)
             | some (f, _) => (f, t))) := rfl

theorem altStep_cpr (D : Decoder) (s : AggState) (aa : String) (t : ℚ) (m : String) :
    (altStep D s aa t m).cpr_messages = s.cpr_messages := by
  unfold altStep
  split
  · split <;> rfl
  · rfl

theorem altStep_positions (D : Decoder) (s : AggState) (aa : String) (t : ℚ) (m : String) :
    (altStep D s aa t m).icao_positions = s.icao_positions := by
  unfold altStep
  split
  · split <;> rfl
  · rfl

theorem altStep_times (D : Decoder) (s : AggState) (aa : String) (t : ℚ) (m : String) :
    (altStep D s aa t m).icao_times = s.icao_times := by
  unfold altStep
  split
  · split <;> rfl
  · rfl

theorem cprStep_altitude (D : Decoder) (s : AggState) (aa : String) (t : ℚ) (m : String) :
    (cprStep D s aa t m).icao_altitude = s.icao_altitude := by
  unfold cprStep
  split
  · rfl
  · split
    · split
      · split <;> rfl
      · rfl
    · rfl

theorem cprStep_times (D : Decoder) (s : AggState) (aa : String) (t : ℚ) (m : String) :
    (cprStep D s aa t m).icao_times = s.icao_times := by
  unfold cprStep
  split
  · rfl
  · split
    · split
      · split <;> rfl
      · rfl
    · rfl

theorem cprStep_callsigns (D : Decoder) (s : AggState) (aa : String) (t : ℚ) (m : String) :
    (cprStep D s aa t m).icao_callsigns = s.icao_callsigns := by
  unfold cprStep
  split
  · rfl
  · split
    · split
      · split <;> rfl
      · rfl
    · rfl

theorem speedStep_times (D : Decoder) (s : AggState) (aa : String) (t : ℚ) (m : String) :
    (speedStep D s aa t m).icao_times = s.icao_times := by
  unfold speedStep
  split
  · split <;> rfl
  · rfl

theorem courseStep_speed (D : Decoder) (s : AggState) (aa : String) (t : ℚ) (m : String) :
    (courseStep D s aa t m).icao_speed = s.icao_speed := by
  unfold courseStep
  split <;> rfl

theorem courseStep_times (D : Decoder) (s : AggState) (aa : String) (t : ℚ) (m : String) :
    (courseStep D s aa t m).icao_times = s.icao_times := by
  unfold courseStep
  split <;> rfl

theorem diffStep_speed (D : Decoder) (s : AggState) (aa : String) (t : ℚ) (m : String) :
    (diffStep D s aa t m).icao_speed = s.icao_speed := by
  unfold diffStep
  split <;> rfl

theorem diffStep_courses (D : Decoder) (s : AggState) (aa : String) (t : ℚ) (m : String) :
    (diffStep D s aa t m).icao_courses = s.icao_courses := by
  unfold diffStep
  split <;> rfl

theorem diffStep_times (D : Decoder) (s : AggState) (aa : String) (t : ℚ) (m : String) :
    (diffStep D s aa t m).icao_times = s.icao_times := by
  unfold diffStep
  split <;> rfl

theorem identStep_times (D : Decoder) (s : AggState) (aa : String) (m : String) :
    (identStep D s aa m).icao_times = s.icao_times := by
  unfold identStep
  split
  · split <;> rfl
  · rfl

theorem baroStep_times (D : Decoder) (s : AggState) (aa : String) (t : ℚ) (m : String) :
    (baroStep D s aa t m).icao_times = s.icao_times := by
  unfold baroStep
  split <;> rfl

theorem baroStep_callsigns (D : Decoder) (s : AggState) (aa : String) (t : ℚ) (m : String) :
    (baroStep D s aa t m).icao_callsigns = s.icao_callsigns := by
  unfold baroStep
  split <;> rfl

theorem baroStep_selected (D : Decoder) (s : AggState) (aa : String) (t : ℚ) (m : String) :
    (baroStep D s aa t m).icao_selected_altitude = s.icao_selected_altitude := by
  unfold baroStep
  split <;> rfl

theorem statusModes_times (D : Decoder) (s : AggState) (aa : String) (t : ℚ) (m : String)
    (modes : Finset String) :
    (statusModes D s aa t m modes).icao_times = s.icao_times := by
  unfold statusModes
  split
  · rfl
  · rw [baroStep_times]
  · rw [baroStep_times]

theorem statusStep_times (D : Decoder) (s : AggState) (aa : String) (t : ℚ) (m : String) :
    (statusStep D s aa t m).icao_times = s.icao_times := by
  unfold statusStep
  split
  · rw [statusModes_times]; rfl
  · rw [baroStep_times]

/-- Reduction of `processFrame` on a processed frame (decodable DF 17/18
address, not filtered out) to the type-code dispatch. -/
theorem processFrame_processed (D : Decoder) (tgt : Option String) (s : AggState)
    (msg : ADSBMessage) (mstr : String) (dfv : Int) (aa : String)
    (hdf : D.df mstr = some dfv) (hdfok : dfv = 17 ∨ dfv = 18)
    (hic : D.icao mstr = some aa) (htgt : targetSkip tgt aa = false) :
    processFrame D tgt s msg mstr =
      (match D.typecode mstr with
       | some tc =>
         if 9 ≤ tc ∧ tc ≤ 18 then
           cprStep D (altStep D (touch s aa msg.timestamp) aa msg.timestamp mstr) aa msg.timestamp mstr
         else if tc = 19 then
           diffStep D (courseStep D (speedStep D (touch s aa msg.timestamp) aa msg.timestamp mstr) aa msg.timestamp mstr) aa msg.timestamp mstr
         else if 1 ≤ tc ∧ tc ≤ 4 then identStep D (touch s aa msg.timestamp) aa mstr
         else if tc = 29 then statusStep D (touch s aa msg.timestamp) aa msg.timestamp mstr
         else touch s aa msg.timestamp
       | none => touch s aa msg.timestamp) := by
  unfold processFrame
  rw [hdf, hic]
  rcases hdfok with h | h <;> subst h <;> simp [htgt]

/-! ## C10: non-ADS-B frames leave the state unchanged -/

/-- The step `processFrame` is the identity when the downlink format or address
fails to decode or the downlink format is not 17/18. -/
theorem processFrame_skip (D : Decoder) (tgt : Option String) (s : AggState)
    (msg : ADSBMessage) (mstr : String)
    (hdf : D.df mstr = none ∨ D.icao mstr = none ∨
      ∀ d, D.df mstr = some d → d ≠ 17 ∧ d ≠ 18) :
    processFrame D tgt s msg mstr = s := by
  unfold processFrame
  rcases hdf with h | h | h
  · rw [h]
  · cases hD : D.df mstr with
    | none => rfl
    | some d => rw [h]
  · cases hD : D.df mstr with
    | none => rfl
    | some d =>
      cases hI : D.icao mstr with
      | none => rfl
      | some aa =>
        have hd := h d hD
        dsimp only
        rw [if_neg]
        simp [hd.1, hd.2]

/-- C10: for every successfully parsed line whose payload decodes to a
downlink format other than 17 or 18, or whose downlink format or aircraft
address cannot be decoded at all, processing the line leaves the entire
aggregation state unchanged. -/
theorem c10_non_adsb_unchanged (D : Decoder) (tgt : Option String)
    (s : AggState) (line : String) (msg : ADSBMessage) (sp mstr : String)
    (hp : parse_ads_b_line line = some (msg, sp, mstr))
    (hdf : D.df mstr = none ∨ D.icao mstr = none ∨
      ∀ d, D.df mstr = some d → d ≠ 17 ∧ d ≠ 18) :
    processLine D tgt s line = s := by
  unfold processLine
  by_cases hb : line.data.all (fun c => isWS c)
  · rw [if_pos hb]
  · rw [if_neg hb, hp]
    exact processFrame_skip D tgt s msg mstr hdf

def D10 : Decoder where
  df := fun _ => some 16
  icao := fun _ => some "AAAAAA"
  typecode := fun _ => none
  oe_flag := fun _ => none
  altitude := fun _ => none
  velocity := fun _ => none
  callsign := fun _ => none
  selected_altitude := fun _ => none
  altitude_diff := fun _ => none
  baro_pressure_setting := fun _ => none
  position := fun _ _ _ _ => none

/-- Witness for C10: a concrete DF-16 frame leaves the initial state
untouched. -/
theorem c10_non_adsb_unchanged_witness :
    processLine D10 none initState "0 8D" = initState := by
  exact c10_non_adsb_unchanged D10 none initState "0 8D" ⟨0, [141], 1⟩ "8D" "8D"
    (by decide)
    (Or.inr (Or.inr (fun d hd => by simp [D10] at hd; omega)))

/-- Reduction of `processFrame` for a position frame (type code 9..18). -/
theorem processFrame_pos (D : Decoder) (tgt : Option String) (s : AggState)
    (msg : ADSBMessage) (mstr : String) (dfv : Int) (aa : String) (tc : Int)
    (hdf : D.df mstr = some dfv) (hdfok : dfv = 17 ∨ dfv = 18)
    (hic : D.icao mstr = some aa) (htgt : targetSkip tgt aa = false)
    (htc : D.typecode mstr = some tc) (h9 : 9 ≤ tc) (h18 : tc ≤ 18) :
    processFrame D tgt s msg mstr =
      cprStep D (altStep D (touch s aa msg.timestamp) aa msg.timestamp mstr) aa msg.timestamp mstr := by
  rw [processFrame_processed D tgt s msg mstr dfv aa hdf hdfok hic htgt, htc]
  simp [h9, h18]

/-- Reduction of `processFrame` for a velocity frame (type code 19). -/
theorem processFrame_vel (D : Decoder) (tgt : Option String) (s : AggState)
    (msg : ADSBMessage) (mstr : String) (dfv : Int) (aa : String)
    (hdf : D.df mstr = some dfv) (hdfok : dfv = 17 ∨ dfv = 18)
    (hic : D.icao mstr = some aa) (htgt : targetSkip tgt aa = false)
    (htc : D.typecode mstr = some 19) :
    processFrame D tgt s msg mstr =
      diffStep D (courseStep D (speedStep D (touch s aa msg.timestamp) aa msg.timestamp mstr) aa msg.timestamp mstr) aa msg.timestamp mstr := by
  rw [processFrame_processed D tgt s msg mstr dfv aa hdf hdfok hic htgt, htc]
  norm_num

/-- Reduction of `processFrame` for an identification frame (type code 1..4). -/
theorem processFrame_ident (D : Decoder) (tgt : Option String) (s : AggState)
    (msg : ADSBMessage) (mstr : String) (dfv : Int) (aa : String) (tc : Int)
    (hdf : D.df mstr = some dfv) (hdfok : dfv = 17 ∨ dfv = 18)
    (hic : D.icao mstr = some aa) (htgt : targetSkip tgt aa = false)
    (htc : D.typecode mstr = some tc) (h1 : 1 ≤ tc) (h4 : tc ≤ 4) :
    processFrame D tgt s msg mstr = identStep D (touch s aa msg.timestamp) aa mstr := by
  rw [processFrame_processed D tgt s msg mstr dfv aa hdf hdfok hic htgt, htc]
  have hn1 : ¬ (9 ≤ tc ∧ tc ≤ 18) := by omega
  have hn2 : tc ≠ 19 := by omega
  simp [hn1, hn2, h1, h4]

/-- Reduction of `processFrame` for a target-state frame (type code 29). -/
theorem processFrame_status (D : Decoder) (tgt : Option String) (s : AggState)
    (msg : ADSBMessage) (mstr : String) (dfv : Int) (aa : String)
    (hdf : D.df mstr = some dfv) (hdfok : dfv = 17 ∨ dfv = 18)
    (hic : D.icao mstr = some aa) (htgt : targetSkip tgt aa = false)
    (htc : D.typecode mstr = some 29) :
    processFrame D tgt s msg mstr = statusStep D (touch s aa msg.timestamp) aa msg.timestamp mstr := by
  rw [processFrame_processed D tgt s msg mstr dfv aa hdf hdfok hic htgt, htc]
  norm_num

/-! ## C7: altitude and speed range filters -/

/-- C7: the altitude filter accepts exactly values in [-1000, 50000] and the
speed filter exactly values in [0, 1000]; an out-of-range value is silently
dropped (the series is unchanged, nothing is clamped), an in-range value is
appended verbatim. -/
theorem c7_altitude_speed_filters (D : Decoder) (tgt : Option String) (s : AggState)
    (msg : ADSBMessage) (mstr : String) (dfv : Int) (aa : String) (tc : Int)
    (hdf : D.df mstr = some dfv) (hdfok : dfv = 17 ∨ dfv = 18)
    (hic : D.icao mstr = some aa) (htgt : targetSkip tgt aa = false)
    (htc : D.typecode mstr = some tc) :
    (∀ alt, 9 ≤ tc → tc ≤ 18 → get_altitude D mstr = some alt →
      ((-1000 ≤ alt ∧ alt ≤ 50000 →
         (processFrame D tgt s msg mstr).icao_altitude aa =
           s.icao_altitude aa ++ [(msg.timestamp, alt)]) ∧
       (¬ (-1000 ≤ alt ∧ alt ≤ 50000) →
         (processFrame D tgt s msg mstr).icao_altitude aa = s.icao_altitude aa))) ∧
    (∀ gs, tc = 19 → get_velocity D mstr = some gs →
      ((0 ≤ gs ∧ gs ≤ 1000 →
         (processFrame D tgt s msg mstr).icao_speed aa =
           s.icao_speed aa ++ [(msg.timestamp, gs)]) ∧
       (¬ (0 ≤ gs ∧ gs ≤ 1000) →
         (processFrame D tgt s msg mstr).icao_speed aa = s.icao_speed aa))) := by
  constructor
  · intro alt h9 h18 halt
    rw [processFrame_pos D tgt s msg mstr dfv aa tc hdf hdfok hic htgt htc h9 h18,
      cprStep_altitude]
    unfold altStep
    rw [halt]
    dsimp only
    constructor
    · intro hin
      rw [if_pos hin]
      show upd (touch s aa msg.timestamp).icao_altitude aa _ aa = _
      rw [upd_same, touch_altitude]
    · intro hout
      rw [if_neg hout, touch_altitude]
  · intro gs h19 hgs
    subst h19
    rw [processFrame_vel D tgt s msg mstr dfv aa hdf hdfok hic htgt htc,
      diffStep_speed, courseStep_speed]
    unfold speedStep
    rw [hgs]
    dsimp only
    constructor
    · intro hin
      rw [if_pos hin]
      show upd (touch s aa msg.timestamp).icao_speed aa _ aa = _
      rw [upd_same, touch_speed]
    · intro hout
      rw [if_neg hout, touch_speed]

def D7 : Decoder where
  df := fun _ => some 17
  icao := fun _ => some "AAAAAA"
  typecode := fun p => if p = "A1" ∨ p = "A2" then some 9 else some 19
  oe_flag := fun _ => none
  altitude := fun p => if p = "A1" then some 25000 else if p = "A2" then some (-1500) else none
  velocity := fun p =>
    if p = "S1" then some (some 450, none, none, "GS")
    else if p = "S2" then some (some 1200, none, none, "GS") else none
  callsign := fun _ => none
  selected_altitude := fun _ => none
  altitude_diff := fun _ => none
  baro_pressure_setting := fun _ => none
  position := fun _ _ _ _ => none

/-- Witness for C7: altitude 25000 is stored, altitude -1500 is dropped,
speed 450 is stored, speed 1200 is dropped. -/
theorem c7_altitude_speed_filters_witness :
    (processFrame D7 none initState ⟨0, [], 1⟩ "A1").icao_altitude "AAAAAA" = [(0, 25000)] ∧
    (processFrame D7 none initState ⟨0, [], 1⟩ "A2").icao_altitude "AAAAAA" = [] ∧
    (processFrame D7 none initState ⟨0, [], 1⟩ "S1").icao_speed "AAAAAA" = [(0, 450)] ∧
    (processFrame D7 none initState ⟨0, [], 1⟩ "S2").icao_speed "AAAAAA" = [] := by
  refine ⟨?_, ?_, ?_, ?_⟩
  · have h := ((c7_altitude_speed_filters D7 none initState ⟨0, [], 1⟩ "A1" 17 "AAAAAA" 9
      rfl (Or.inl rfl) rfl rfl (by decide)).1 25000 (by norm_num) (by norm_num)
      (by decide)).1 (by norm_num)
    simpa [initState] using h
  · have h := ((c7_altitude_speed_filters D7 none initState ⟨0, [], 1⟩ "A2" 17 "AAAAAA" 9
      rfl (Or.inl rfl) rfl rfl (by decide)).1 (-1500) (by norm_num) (by norm_num)
      (by decide)).2 (by norm_num)
    simpa [initState] using h
  · have h := ((c7_altitude_speed_filters D7 none initState ⟨0, [], 1⟩ "S1" 17 "AAAAAA" 19
      rfl (Or.inl rfl) rfl rfl (by decide)).2 450 rfl (by decide)).1 (by norm_num)
    simpa [initState] using h
  · have h := ((c7_altitude_speed_filters D7 none initState ⟨0, [], 1⟩ "S2" 17 "AAAAAA" 19
      rfl (Or.inl rfl) rfl rfl (by decide)).2 1200 rfl (by decide)).2 (by norm_num)
    simpa [initState] using h

/-! ## C5: first_seen / last_seen bookkeeping -/

/-- The step `processFrame` is the identity when the aircraft-address target filter
rejects the frame. -/
theorem processFrame_target_skip (D : Decoder) (tgt : Option String) (s : AggState)
    (msg : ADSBMessage) (mstr : String) (d : Int) (aa : String)
    (hD : D.df mstr = some d) (hI : D.icao mstr = some aa)
    (ht : targetSkip tgt aa = true) :
    processFrame D tgt s msg mstr = s := by
  unfold processFrame
  rw [hD, hI]
  dsimp only
  rw [ht]
  split <;> rfl

/-- On a processed frame, the first/last timestamp dictionary is exactly the
one updated by `touch` (no dispatch branch modifies it further). -/
theorem processFrame_times_processed (D : Decoder) (tgt : Option String) (s : AggState)
    (msg : ADSBMessage) (mstr : String) (dfv : Int) (aa : String)
    (hdf : D.df mstr = some dfv) (hdfok : dfv = 17 ∨ dfv = 18)
    (hic : D.icao mstr = some aa) (htgt : targetSkip tgt aa = false) :
    (processFrame D tgt s msg mstr).icao_times = (touch s aa msg.timestamp).icao_times := by
  rw [processFrame_processed D tgt s msg mstr dfv aa hdf hdfok hic htgt]
  split
  · split
    · rw [cprStep_times, altStep_times]
    · split
      · rw [diffStep_times, courseStep_times, speedStep_times]
      · split
        · rw [identStep_times]
        · split
          · rw [statusStep_times]
          · rfl
  · rfl

/-- Any single frame either leaves the first/last entry of a given key alone
or sets it to (preserved first, frame timestamp). -/
theorem processFrame_times (D : Decoder) (tgt : Option String) (s : AggState)
    (msg : ADSBMessage) (mstr : String) (k : String) :
    (processFrame D tgt s msg mstr).icao_times k = s.icao_times k ∨
    (processFrame D tgt s msg mstr).icao_times k =
      some (match s.icao_times k with
            | none => (msg.timestamp, msg.timestamp)
            | some (f, _) => (f, msg.timestamp)) := by
  cases hD : D.df mstr with
  | none => left; rw [processFrame_skip D tgt s msg mstr (Or.inl hD)]
  | some d =>
    cases hI : D.icao mstr with
    | none => left; rw [processFrame_skip D tgt s msg mstr (Or.inr (Or.inl hI))]
    | some aa =>
      by_cases h17 : d = 17 ∨ d = 18
      · by_cases ht : targetSkip tgt aa = true
        · left
          rw [processFrame_target_skip D tgt s msg mstr d aa hD hI ht]
        · have hred := processFrame_times_processed D tgt s msg mstr d aa hD h17 hI
            (by simpa using ht)
          rw [hred, touch_times]
          by_cases hk : k = aa
          · subst hk; rw [upd_same]; right; rfl
          · rw [upd_ne _ _ _ _ hk]; left; rfl
      · left
        refine congrFun (congrArg _ (processFrame_skip D tgt s msg mstr (Or.inr (Or.inr ?_)))) k
        intro e he
        rw [hD] at he
        injection he with h
        subst h
        exact ⟨fun hc => h17 (Or.inl hc), fun hc => h17 (Or.inr hc)⟩

/-- C5 (amended): `first_seen` is set by the first processed frame for an
address and never modified by any later line; `last_seen` is set to the
timestamp of every processed frame for that address (so the stored pair is
(first frame timestamp, most recent frame timestamp); the last-seen sequence
is monotone only when the input timestamps arrive in non-decreasing order). -/
theorem c5_first_last_seen (D : Decoder) (tgt : Option String) (s : AggState) (aa : String) :
    (∀ line f l, s.icao_times aa = some (f, l) →
       ∃ l2, (processLine D tgt s line).icao_times aa = some (f, l2)) ∧
    (∀ msg mstr dfv, D.df mstr = some dfv → (dfv = 17 ∨ dfv = 18) →
       D.icao mstr = some aa → targetSkip tgt aa = false →
       (processFrame D tgt s msg mstr).icao_times aa =
         some (match s.icao_times aa with
               | none => (msg.timestamp, msg.timestamp)
               | some (f, _) => (f, msg.timestamp))) := by
  constructor
  · intro line f l hfl
    unfold processLine
    by_cases hb : line.data.all (fun c => isWS c)
    · rw [if_pos hb]; exact ⟨l, hfl⟩
    · rw [if_neg hb]
      cases hp : parse_ads_b_line line with
      | none => exact ⟨l, hfl⟩
      | some r =>
        rcases processFrame_times D tgt s r.1 r.2.2 aa with h | h
        · exact ⟨l, by rw [h, hfl]⟩
        · refine ⟨r.1.timestamp, ?_⟩
          rw [h, hfl]
  · intro msg mstr dfv hdf hdfok hic htgt
    rw [processFrame_times_processed D tgt s msg mstr dfv aa hdf hdfok hic htgt,
      touch_times, upd_same]

def D5 : Decoder where
  df := fun _ => some 17
  icao := fun _ => some "AAAAAA"
  typecode := fun _ => none
  oe_flag := fun _ => none
  altitude := fun _ => none
  velocity := fun _ => none
  callsign := fun _ => none
  selected_altitude := fun _ => none
  altitude_diff := fun _ => none
  baro_pressure_setting := fun _ => none
  position := fun _ _ _ _ => none

/-- A starting state whose entry for `"AAAAAA"` is (first 1, last 2). -/
def s5 : AggState :=
  { initState with icao_times := upd initState.icao_times "AAAAAA" (some (1, 2)) }

/-- Counterexample for C5 as stated: two processed frames with decreasing
timestamps (5 then 3) leave last_seen = 3 after it was 5, so the sequence of
last_seen values is not monotonic non-decreasing in arrival order. -/
theorem c5_monotone_counterexample :
    (processFrame D5 none initState ⟨5, [], 1⟩ "F1").icao_times "AAAAAA" = some (5, 5) ∧
    (processFrame D5 none (processFrame D5 none initState ⟨5, [], 1⟩ "F1")
      ⟨3, [], 1⟩ "F1").icao_times "AAAAAA" = some (5, 3) ∧
    ¬ ((5 : ℚ) ≤ 3) := by
  refine ⟨?_, ?_, by norm_num⟩ <;>
    norm_num +decide [processFrame, touch, upd, D5, initState]

/-- Witness for C5 (amended): a state with first/last (1, 2) keeps first = 1
across an arbitrary later line, and a processed frame at time 9 sets the
entry to (1, 9). -/
theorem c5_first_last_seen_witness :
    (∃ l2, (processLine D5 none s5 "0 8D").icao_times "AAAAAA" = some (1, l2)) ∧
    (processFrame D5 none s5 ⟨9, [], 1⟩ "F1").icao_times "AAAAAA" = some (1, 9) := by
  constructor
  · exact (c5_first_last_seen D5 none s5 "AAAAAA").1 "0 8D" 1 2
      (by norm_num +decide [s5, initState, upd])
  · have h := (c5_first_last_seen D5 none s5 "AAAAAA").2 ⟨9, [], 1⟩ "F1" 17
      rfl (Or.inl rfl) rfl rfl
    rw [h]
    norm_num +decide [s5, initState, upd]

/-! ## C9: callsign overwrite semantics -/

/-- C9: for an identification frame (type code 1..4) of an aircraft, a
non-empty extracted callsign overwrites the stored one, while an empty or
absent extracted callsign leaves the stored one untouched — last non-empty
value wins. -/
theorem c9_callsign_last_nonempty_wins (D : Decoder) (tgt : Option String) (s : AggState)
    (msg : ADSBMessage) (mstr : String) (dfv : Int) (aa : String) (tc : Int)
    (hdf : D.df mstr = some dfv) (hdfok : dfv = 17 ∨ dfv = 18)
    (hic : D.icao mstr = some aa) (htgt : targetSkip tgt aa = false)
    (htc : D.typecode mstr = some tc) (h1 : 1 ≤ tc) (h4 : tc ≤ 4) :
    (∀ cs, get_callsign D mstr = some cs → cs ≠ "" →
       (processFrame D tgt s msg mstr).icao_callsigns aa = some (.cs cs)) ∧
    (∀ cs, get_callsign D mstr = some cs → cs = "" →
       (processFrame D tgt s msg mstr).icao_callsigns aa = s.icao_callsigns aa) ∧
    (get_callsign D mstr = none →
       (processFrame D tgt s msg mstr).icao_callsigns aa = s.icao_callsigns aa) := by
  rw [processFrame_ident D tgt s msg mstr dfv aa tc hdf hdfok hic htgt htc h1 h4]
  refine ⟨?_, ?_, ?_⟩
  · intro cs hcs hne
    unfold identStep
    rw [hcs]
    dsimp only
    rw [if_pos hne]
    show upd (touch s aa msg.timestamp).icao_callsigns aa _ aa = _
    rw [upd_same]
  · intro cs hcs he
    unfold identStep
    rw [hcs]
    dsimp only
    rw [if_neg (by simp [he]), touch_callsigns]
  · intro hcs
    unfold identStep
    rw [hcs, touch_callsigns]

def D9 : Decoder where
  df := fun _ => some 17
  icao := fun _ => some "AAAAAA"
  typecode := fun _ => some 4
  oe_flag := fun _ => none
  altitude := fun _ => none
  velocity := fun _ => none
  callsign := fun p =>
    if p = "C1" then some "ABC123" else if p = "C3" then some "XYZ789" else some ""
  selected_altitude := fun _ => none
  altitude_diff := fun _ => none
  baro_pressure_setting := fun _ => none
  position := fun _ _ _ _ => none

/-- Witness for C9: receiving "ABC123" then an empty callsign keeps
"ABC123"; receiving "ABC123" then "XYZ789" updates to "XYZ789". -/
theorem c9_callsign_last_nonempty_wins_witness :
    (processFrame D9 none (processFrame D9 none initState ⟨0, [], 1⟩ "C1")
      ⟨1, [], 1⟩ "C2").icao_callsigns "AAAAAA" = some (.cs "ABC123") ∧
    (processFrame D9 none (processFrame D9 none initState ⟨0, [], 1⟩ "C1")
      ⟨1, [], 1⟩ "C3").icao_callsigns "AAAAAA" = some (.cs "XYZ789") := by
  have h1 := (c9_callsign_last_nonempty_wins D9 none initState ⟨0, [], 1⟩ "C1" 17
    "AAAAAA" 4 rfl (Or.inl rfl) rfl rfl rfl (by norm_num) (by norm_num)).1 "ABC123"
    (by decide) (by decide)
  constructor
  · have h2 := (c9_callsign_last_nonempty_wins D9 none
      (processFrame D9 none initState ⟨0, [], 1⟩ "C1") ⟨1, [], 1⟩ "C2" 17
      "AAAAAA" 4 rfl (Or.inl rfl) rfl rfl rfl (by norm_num) (by norm_num)).2.2
      (by decide)
    rw [h2, h1]
  · exact (c9_callsign_last_nonempty_wins D9 none
      (processFrame D9 none initState ⟨0, [], 1⟩ "C1") ⟨1, [], 1⟩ "C3" 17
      "AAAAAA" 4 rfl (Or.inl rfl) rfl rfl rfl (by norm_num) (by norm_num)).1 "XYZ789"
      (by decide) (by decide)

/-! ## C2: mode storage is coupled to the selected-altitude filter -/

/-- C2 (amended): for a type-29 frame the autopilot mode set is stored only
together with an accepted selected-altitude value; when
`get_selected_altitude` yields nothing (value absent or outside
[-2000, 50000]) neither the mode set nor the selected-altitude series is
touched, while the baro correction of the same frame is still processed
independently. -/
theorem c2_modes_only_with_selalt (D : Decoder) (tgt : Option String) (s : AggState)
    (msg : ADSBMessage) (mstr : String) (dfv : Int) (aa : String)
    (hdf : D.df mstr = some dfv) (hdfok : dfv = 17 ∨ dfv = 18)
    (hic : D.icao mstr = some aa) (htgt : targetSkip tgt aa = false)
    (htc : D.typecode mstr = some 29)
    (hsel : get_selected_altitude D mstr = none) :
    (processFrame D tgt s msg mstr).icao_callsigns (aa ++ "_modes") =
      s.icao_callsigns (aa ++ "_modes") ∧
    (processFrame D tgt s msg mstr).icao_selected_altitude aa =
      s.icao_selected_altitude aa ∧
    (∀ b, get_baro_correction D mstr = some b →
      (processFrame D tgt s msg mstr).icao_baro_correction aa =
        s.icao_baro_correction aa ++ [(msg.timestamp, b)]) := by
  rw [processFrame_status D tgt s msg mstr dfv aa hdf hdfok hic htgt htc]
  unfold statusStep
  rw [hsel]
  refine ⟨?_, ?_, ?_⟩
  · rw [baroStep_callsigns, touch_callsigns]
  · rw [baroStep_selected, touch_selected]
  · intro b hb
    unfold baroStep
    rw [hb]
    dsimp only
    show upd (touch s aa msg.timestamp).icao_baro_correction aa _ aa = _
    rw [upd_same, touch_baro]

def D2 : Decoder where
  df := fun _ => some 17
  icao := fun _ => some "AAAAAA"
  typecode := fun _ => some 29
  oe_flag := fun _ => none
  altitude := fun _ => none
  velocity := fun _ => none
  callsign := fun _ => none
  selected_altitude := fun p =>
    if p = "P1" then some (some 60000, ['U']) else some (none, ['U'])
  altitude_diff := fun _ => none
  baro_pressure_setting := fun _ => some 1000
  position := fun _ _ _ _ => none

/-- Counterexample for C2 as stated: a type-29 frame carrying mode flag 'U'
but a selected altitude of 60000 (outside [-2000, 50000]), and one carrying
'U' with the value absent, store no mode set at all — the rejection of the
selected-altitude field suppresses the mode-set field of the same frame. -/
theorem c2_modes_suppressed_counterexample :
    (processFrame D2 none initState ⟨0, [], 1⟩ "P1").icao_callsigns "AAAAAA_modes" = none ∧
    (processFrame D2 none initState ⟨0, [], 1⟩ "P1").icao_selected_altitude "AAAAAA" = [] ∧
    (processFrame D2 none initState ⟨0, [], 1⟩ "P2").icao_callsigns "AAAAAA_modes" = none := by
  refine ⟨?_, ?_, ?_⟩ <;>
    norm_num +decide [processFrame, statusStep, baroStep, touch, upd,
      get_selected_altitude, get_baro_correction, D2, initState]

/-- Witness for C2 (amended): with the rejected selected altitude 60000 the
mode entry stays empty while the baro correction 1000 of the same frame is
still appended. -/
theorem c2_modes_only_with_selalt_witness :
    (processFrame D2 none initState ⟨0, [], 1⟩ "P1").icao_callsigns ("AAAAAA" ++ "_modes") =
      initState.icao_callsigns ("AAAAAA" ++ "_modes") ∧
    (processFrame D2 none initState ⟨0, [], 1⟩ "P1").icao_baro_correction "AAAAAA" =
      initState.icao_baro_correction "AAAAAA" ++ [(0, 1000)] := by
  have h := c2_modes_only_with_selalt D2 none initState ⟨0, [], 1⟩ "P1" 17 "AAAAAA"
    rfl (Or.inl rfl) rfl rfl rfl
    (by norm_num +decide [get_selected_altitude, D2])
  exact ⟨h.1, h.2.2 1000 (by norm_num +decide [get_baro_correction, D2])⟩

/-! ## C3: the course series is not range-filtered -/

theorem speedStep_courses (D : Decoder) (s : AggState) (aa : String) (t : ℚ) (m : String) :
    (speedStep D s aa t m).icao_courses = s.icao_courses := by
  unfold speedStep
  split
  · split <;> rfl
  · rfl

/-- C3 (amended): on a type-19 frame every decoded heading is appended to
the course series with no range filter at all, while the speed value of the
same frame is subject to its [0, 1000] filter. -/
theorem c3_course_unfiltered (D : Decoder) (tgt : Option String) (s : AggState)
    (msg : ADSBMessage) (mstr : String) (dfv : Int) (aa : String)
    (hdf : D.df mstr = some dfv) (hdfok : dfv = 17 ∨ dfv = 18)
    (hic : D.icao mstr = some aa) (htgt : targetSkip tgt aa = false)
    (htc : D.typecode mstr = some 19) :
    (∀ crs, get_course D mstr = some crs →
       (processFrame D tgt s msg mstr).icao_courses aa =
         s.icao_courses aa ++ [(msg.timestamp, crs)]) ∧
    (∀ sp, get_velocity D mstr = some sp → ¬ (0 ≤ sp ∧ sp ≤ 1000) →
       (processFrame D tgt s msg mstr).icao_speed aa = s.icao_speed aa) := by
  rw [processFrame_vel D tgt s msg mstr dfv aa hdf hdfok hic htgt htc]
  constructor
  · intro crs hcrs
    rw [diffStep_courses]
    unfold courseStep
    rw [hcrs]
    dsimp only
    show upd (speedStep D (touch s aa msg.timestamp) aa msg.timestamp mstr).icao_courses aa _ aa = _
    rw [upd_same, speedStep_courses, touch_courses]
  · intro sp hsp hout
    rw [diffStep_speed, courseStep_speed]
    unfold speedStep
    rw [hsp]
    dsimp only
    rw [if_neg hout, touch_speed]

def D3 : Decoder where
  df := fun _ => some 17
  icao := fun _ => some "AAAAAA"
  typecode := fun _ => some 19
  oe_flag := fun _ => none
  altitude := fun _ => none
  velocity := fun _ => some (some 1200, some 720, none, "GS")
  callsign := fun _ => none
  selected_altitude := fun _ => none
  altitude_diff := fun _ => none
  baro_pressure_setting := fun _ => none
  position := fun _ _ _ _ => none

/-- Counterexample for C3 as stated: one type-19 frame decoding to ground
speed 1200 and heading 720 stores the impossible heading 720 in the course
series (no range filter ran) while the speed is dropped by its filter. -/
theorem c3_course_filter_counterexample :
    (processFrame D3 none initState ⟨0, [], 1⟩ "V1").icao_courses "AAAAAA" = [(0, 720)] ∧
    (processFrame D3 none initState ⟨0, [], 1⟩ "V1").icao_speed "AAAAAA" = [] ∧
    ¬ ((720 : ℚ) ≤ 360) := by
  refine ⟨?_, ?_, by norm_num⟩ <;>
    norm_num +decide [processFrame, speedStep, courseStep, diffStep, touch, upd,
      get_velocity, get_course, get_altitude_difference, D3, initState]

/-- Witness for C3 (amended): heading 720 is appended unfiltered and speed
1200 is dropped, from the same frame. -/
theorem c3_course_unfiltered_witness :
    (processFrame D3 none initState ⟨0, [], 1⟩ "V1").icao_courses "AAAAAA" =
      initState.icao_courses "AAAAAA" ++ [(0, 720)] ∧
    (processFrame D3 none initState ⟨0, [], 1⟩ "V1").icao_speed "AAAAAA" =
      initState.icao_speed "AAAAAA" := by
  have h := c3_course_unfiltered D3 none initState ⟨0, [], 1⟩ "V1" 17 "AAAAAA"
    rfl (Or.inl rfl) rfl rfl rfl
  exact ⟨h.1 720 (by norm_num +decide [get_course, D3]),
         h.2 1200 (by norm_num +decide [get_velocity, D3]) (by norm_num)⟩

/-! ## C1 and C6: CPR pairing behaviour -/

/-- Behaviour of `cprStep` when storing the incoming frame completes a pair:
within the 10-second window a resolution is attempted and both slots are
cleared whatever its outcome; outside the window nothing is attempted and
both slots keep their frames. -/
theorem cprStep_full (D : Decoder) (s : AggState) (aa : String) (t : ℚ) (mstr : String)
    (oe : Fin 2) (m0 m1 : String) (t0 t1 : ℚ)
    (hoe : D.oe_flag mstr = some oe)
    (hs : setSlot ((s.cpr_messages aa).getD (none, none)) oe (mstr, t) =
      (some (m0, t0), some (m1, t1))) :
    (pyAbs (t0 - t1) < 10 →
       (cprStep D s aa t mstr).cpr_messages aa = some (none, none) ∧
       (∀ la lo, D.position m0 m1 t0 t1 = some (la, lo) →
          (cprStep D s aa t mstr).icao_positions aa =
            s.icao_positions aa ++ [(t, la, lo)]) ∧
       (D.position m0 m1 t0 t1 = none →
          (cprStep D s aa t mstr).icao_positions aa = s.icao_positions aa)) ∧
    (¬ pyAbs (t0 - t1) < 10 →
       (cprStep D s aa t mstr).cpr_messages aa = some (some (m0, t0), some (m1, t1)) ∧
       (cprStep D s aa t mstr).icao_positions aa = s.icao_positions aa) := by
  unfold cprStep
  rw [hoe]
  dsimp only
  rw [hs]
  dsimp only
  constructor
  · intro hlt
    rw [if_pos hlt]
    refine ⟨?_, ?_, ?_⟩
    · cases hp : D.position m0 m1 t0 t1 with
      | none => dsimp only; rw [upd_same]
      | some p =>
        cases p with
        | mk la lo => dsimp only; rw [upd_same]
    · intro la lo hp
      rw [hp]
      dsimp only
      rw [upd_same]
    · intro hp
      rw [hp]
  · intro hge
    rw [if_neg hge]
    exact ⟨upd_same _ _ _, rfl⟩

/-- Behaviour of `cprStep` when the pair is still incomplete after the
store: the slot pair is recorded as stored and no position is appended. -/
theorem cprStep_incomplete (D : Decoder) (s : AggState) (aa : String) (t : ℚ) (mstr : String)
    (oe : Fin 2)
    (hoe : D.oe_flag mstr = some oe)
    (hs : (setSlot ((s.cpr_messages aa).getD (none, none)) oe (mstr, t)).1 = none ∨
          (setSlot ((s.cpr_messages aa).getD (none, none)) oe (mstr, t)).2 = none) :
    (cprStep D s aa t mstr).cpr_messages aa =
      some (setSlot ((s.cpr_messages aa).getD (none, none)) oe (mstr, t)) ∧
    (cprStep D s aa t mstr).icao_positions aa = s.icao_positions aa := by
  unfold cprStep
  rw [hoe]
  dsimp only
  rcases hp : setSlot ((s.cpr_messages aa).getD (none, none)) oe (mstr, t) with ⟨a, b⟩
  rw [hp] at hs
  cases a with
  | none =>
    dsimp only
    cases b <;> exact ⟨upd_same _ _ _, rfl⟩
  | some p0 =>
    cases p0 with
    | mk pm0 pt0 =>
      cases b with
      | none => exact ⟨upd_same _ _ _, rfl⟩
      | some p1 => simp at hs

/-- C1 (amended): when a position frame completes a pair (both slots
non-empty after the store), a resolution attempt is made only if the two
slot timestamps differ by less than 10 seconds, and in that case both slots
are cleared regardless of the outcome; when the difference is 10 seconds or
more (e.g. 15 s) no attempt is made, nothing is appended to the position
series, and both slots keep their frames. -/
theorem c1_cpr_window (D : Decoder) (tgt : Option String) (s : AggState)
    (msg : ADSBMessage) (mstr : String) (dfv : Int) (aa : String) (tc : Int)
    (oe : Fin 2) (m0 m1 : String) (t0 t1 : ℚ)
    (hdf : D.df mstr = some dfv) (hdfok : dfv = 17 ∨ dfv = 18)
    (hic : D.icao mstr = some aa) (htgt : targetSkip tgt aa = false)
    (htc : D.typecode mstr = some tc) (h9 : 9 ≤ tc) (h18 : tc ≤ 18)
    (hoe : D.oe_flag mstr = some oe)
    (hs : setSlot ((s.cpr_messages aa).getD (none, none)) oe (mstr, msg.timestamp) =
      (some (m0, t0), some (m1, t1))) :
    (pyAbs (t0 - t1) < 10 →
       (processFrame D tgt s msg mstr).cpr_messages aa = some (none, none)) ∧
    (¬ pyAbs (t0 - t1) < 10 →
       (processFrame D tgt s msg mstr).cpr_messages aa =
         some (some (m0, t0), some (m1, t1)) ∧
       (processFrame D tgt s msg mstr).icao_positions aa = s.icao_positions aa) := by
  rw [processFrame_pos D tgt s msg mstr dfv aa tc hdf hdfok hic htgt htc h9 h18]
  have hfull := cprStep_full D (altStep D (touch s aa msg.timestamp) aa msg.timestamp mstr)
    aa msg.timestamp mstr oe m0 m1 t0 t1 hoe
    (by rw [altStep_cpr, touch_cpr]; exact hs)
  constructor
  · intro hlt
    exact (hfull.1 hlt).1
  · intro hge
    refine ⟨(hfull.2 hge).1, ?_⟩
    rw [(hfull.2 hge).2, altStep_positions, touch_positions]

def D1 : Decoder where
  df := fun _ => some 17
  icao := fun _ => some "AAAAAA"
  typecode := fun _ => some 9
  oe_flag := fun p => if p = "E1" then some 0 else some 1
  altitude := fun _ => none
  velocity := fun _ => none
  callsign := fun _ => none
  selected_altitude := fun _ => none
  altitude_diff := fun _ => none
  baro_pressure_setting := fun _ => none
  position := fun _ _ _ _ => some (50, 60)

/-- Counterexample for C1 as stated: one even frame at t = 0 and one odd
frame at t = 15 for the same aircraft produce no position entry, but the
pairing slots are NOT cleared afterwards — both still hold their frames,
where the claim demands both slots be empty. -/
theorem c1_cpr_delta15_counterexample :
    (processFrame D1 none (processFrame D1 none initState ⟨0, [], 1⟩ "E1")
      ⟨15, [], 1⟩ "0D").icao_positions "AAAAAA" = [] ∧
    (processFrame D1 none (processFrame D1 none initState ⟨0, [], 1⟩ "E1")
      ⟨15, [], 1⟩ "0D").cpr_messages "AAAAAA" =
      some (some ("E1", 0), some ("0D", 15)) ∧
    (some (some ("E1", (0 : ℚ)), some ("0D", (15 : ℚ))) ≠
      (some (none, none) : Option (Option (String × ℚ) × Option (String × ℚ)))) := by
  refine ⟨?_, ?_, by decide⟩ <;>
    norm_num +decide [processFrame, cprStep, altStep, touch, targetSkip, setSlot, upd,
      pyAbs, get_altitude, D1, initState]

/-- A starting state whose even CPR slot for `"AAAAAA"` already holds a
frame received at t = 0. -/
def s1cpr : AggState :=
  { initState with cpr_messages := upd initState.cpr_messages "AAAAAA" (some (some ("E1", 0), none)) }

/-- Witness for C1 (amended): completing the pair with an odd frame at
t = 15 (difference 15 ≥ 10) keeps both slots occupied and appends nothing. -/
theorem c1_cpr_window_witness :
    (processFrame D1 none s1cpr ⟨15, [], 1⟩ "0D").cpr_messages "AAAAAA" =
      some (some ("E1", 0), some ("0D", 15)) ∧
    (processFrame D1 none s1cpr ⟨15, [], 1⟩ "0D").icao_positions "AAAAAA" =
      s1cpr.icao_positions "AAAAAA" := by
  exact (c1_cpr_window D1 none s1cpr ⟨15, [], 1⟩ "0D" 17 "AAAAAA" 9 1 "E1" "0D" 0 15
    rfl (Or.inl rfl) rfl rfl rfl (by norm_num) (by norm_num)
    (by decide) (by norm_num +decide [s1cpr, initState, upd, setSlot])).2
    (by norm_num [pyAbs])

/-- C6: a frame of a given parity overwrites its slot rather than queueing,
so feeding even, even, odd (with the second even and the odd frame within
the window) resolves the position from the second even frame only, for any
behaviour of the resolver on the first even frame; afterwards both slots are
cleared.  Each slot holds at most one pending frame by construction of the
slot state. -/
theorem c6_parity_slot_overwrite (D : Decoder) (tgt : Option String) (s : AggState)
    (msg1 msg2 msg3 : ADSBMessage) (e1 e2 o : String)
    (dfv1 dfv2 dfv3 tc1 tc2 tc3 : Int) (aa : String) (la lo : ℚ)
    (hdf1 : D.df e1 = some dfv1) (hdfok1 : dfv1 = 17 ∨ dfv1 = 18)
    (hdf2 : D.df e2 = some dfv2) (hdfok2 : dfv2 = 17 ∨ dfv2 = 18)
    (hdf3 : D.df o = some dfv3) (hdfok3 : dfv3 = 17 ∨ dfv3 = 18)
    (hic1 : D.icao e1 = some aa) (hic2 : D.icao e2 = some aa) (hic3 : D.icao o = some aa)
    (htgt : targetSkip tgt aa = false)
    (htc1 : D.typecode e1 = some tc1) (h91 : 9 ≤ tc1) (h181 : tc1 ≤ 18)
    (htc2 : D.typecode e2 = some tc2) (h92 : 9 ≤ tc2) (h182 : tc2 ≤ 18)
    (htc3 : D.typecode o = some tc3) (h93 : 9 ≤ tc3) (h183 : tc3 ≤ 18)
    (hoe1 : D.oe_flag e1 = some 0) (hoe2 : D.oe_flag e2 = some 0)
    (hoe3 : D.oe_flag o = some 1)
    (hcpr : s.cpr_messages aa = none)
    (hdt : pyAbs (msg2.timestamp - msg3.timestamp) < 10)
    (hpos : D.position e2 o msg2.timestamp msg3.timestamp = some (la, lo)) :
    (processFrame D tgt (processFrame D tgt (processFrame D tgt s msg1 e1) msg2 e2)
       msg3 o).icao_positions aa = s.icao_positions aa ++ [(msg3.timestamp, la, lo)] ∧
    (processFrame D tgt (processFrame D tgt (processFrame D tgt s msg1 e1) msg2 e2)
       msg3 o).cpr_messages aa = some (none, none) := by
  have h1 := processFrame_pos D tgt s msg1 e1 dfv1 aa tc1 hdf1 hdfok1 hic1 htgt htc1 h91 h181
  have hp1 := cprStep_incomplete D (altStep D (touch s aa msg1.timestamp) aa msg1.timestamp e1)
    aa msg1.timestamp e1 0 hoe1
    (by rw [altStep_cpr, touch_cpr, hcpr]; right; rfl)
  have hS1cpr : (processFrame D tgt s msg1 e1).cpr_messages aa =
      some (some (e1, msg1.timestamp), none) := by
    rw [h1, hp1.1, altStep_cpr, touch_cpr, hcpr]
    rfl
  have hS1pos : (processFrame D tgt s msg1 e1).icao_positions aa = s.icao_positions aa := by
    rw [h1, hp1.2, altStep_positions, touch_positions]
  have h2 := processFrame_pos D tgt (processFrame D tgt s msg1 e1) msg2 e2 dfv2 aa tc2
    hdf2 hdfok2 hic2 htgt htc2 h92 h182
  have hp2 := cprStep_incomplete D
    (altStep D (touch (processFrame D tgt s msg1 e1) aa msg2.timestamp) aa msg2.timestamp e2)
    aa msg2.timestamp e2 0 hoe2
    (by rw [altStep_cpr, touch_cpr, hS1cpr]; right; rfl)
  have hS2cpr : (processFrame D tgt (processFrame D tgt s msg1 e1) msg2 e2).cpr_messages aa =
      some (some (e2, msg2.timestamp), none) := by
    rw [h2, hp2.1, altStep_cpr, touch_cpr, hS1cpr]
    rfl
  have hS2pos : (processFrame D tgt (processFrame D tgt s msg1 e1) msg2 e2).icao_positions aa =
      s.icao_positions aa := by
    rw [h2, hp2.2, altStep_positions, touch_positions, hS1pos]
  have h3 := processFrame_pos D tgt (processFrame D tgt (processFrame D tgt s msg1 e1) msg2 e2)
    msg3 o dfv3 aa tc3 hdf3 hdfok3 hic3 htgt htc3 h93 h183
  have hfull := cprStep_full D
    (altStep D (touch (processFrame D tgt (processFrame D tgt s msg1 e1) msg2 e2) aa
      msg3.timestamp) aa msg3.timestamp o)
    aa msg3.timestamp o 1 e2 o msg2.timestamp msg3.timestamp hoe3
    (by rw [altStep_cpr, touch_cpr, hS2cpr]; rfl)
  constructor
  · rw [h3, (hfull.1 hdt).2.1 la lo hpos, altStep_positions, touch_positions, hS2pos]
  · rw [h3, (hfull.1 hdt).1]

def D6 : Decoder where
  df := fun _ => some 17
  icao := fun _ => some "AAAAAA"
  typecode := fun _ => some 11
  oe_flag := fun p => if p = "0D" then some 1 else some 0
  altitude := fun _ => none
  velocity := fun _ => none
  callsign := fun _ => none
  selected_altitude := fun _ => none
  altitude_diff := fun _ => none
  baro_pressure_setting := fun _ => none
  position := fun p _ _ _ => if p = "E2" then some (50, 60) else some (70, 80)

/-- Witness for C6: feeding even "E1" (t=0), even "E2" (t=2), odd "0D"
(t=3) yields the single position resolved from "E2" (the resolver would
have produced (70, 80) from "E1"), and cleared slots. -/
theorem c6_parity_slot_overwrite_witness :
    (processFrame D6 none (processFrame D6 none (processFrame D6 none initState
       ⟨0, [], 1⟩ "E1") ⟨2, [], 1⟩ "E2") ⟨3, [], 1⟩ "0D").icao_positions "AAAAAA" =
      initState.icao_positions "AAAAAA" ++ [(3, 50, 60)] ∧
    (processFrame D6 none (processFrame D6 none (processFrame D6 none initState
       ⟨0, [], 1⟩ "E1") ⟨2, [], 1⟩ "E2") ⟨3, [], 1⟩ "0D").cpr_messages "AAAAAA" =
      some (none, none) := by
  exact c6_parity_slot_overwrite D6 none initState ⟨0, [], 1⟩ ⟨2, [], 1⟩ ⟨3, [], 1⟩
    "E1" "E2" "0D" 17 17 17 11 11 11 "AAAAAA" 50 60
    rfl (Or.inl rfl) rfl (Or.inl rfl) rfl (Or.inl rfl)
    rfl rfl rfl rfl
    rfl (by norm_num) (by norm_num)
    rfl (by norm_num) (by norm_num)
    rfl (by norm_num) (by norm_num)
    (by decide) (by decide) (by decide)
    rfl
    (by norm_num [pyAbs])
    (by decide)

/-! ## C8 and C4: the line parser contract -/

theorem toNat_ofNat_valid (m : Nat) (h : m < 55296) : (Char.ofNat m).toNat = m := by
  simp [Char.ofNat, Nat.isValidChar, h, Char.ofNatAux, Char.toNat, UInt32.toNat]

theorem isWS_false_of_range (d : Char) (h65 : 65 ≤ d.toNat) (_hd90 : d.toNat ≤ 90) :
    isWS d = false := by
  unfold isWS
  have h1 : (d == ' ') = false := by
    refine beq_eq_false_iff_ne.mpr fun he => ?_
    rw [he] at h65
    exact absurd h65 (by decide)
  have h2 : (d == '\t') = false := by
    refine beq_eq_false_iff_ne.mpr fun he => ?_
    rw [he] at h65
    exact absurd h65 (by decide)
  have h3 : (d == '\n') = false := by
    refine beq_eq_false_iff_ne.mpr fun he => ?_
    rw [he] at h65
    exact absurd h65 (by decide)
  have h4 : (d == '\r') = false := by
    refine beq_eq_false_iff_ne.mpr fun he => ?_
    rw [he] at h65
    exact absurd h65 (by decide)
  rw [h1, h2, h3, h4]
  rfl

theorem pyUpperChar_space : pyUpperChar ' ' = ' ' := by decide

theorem pyUpperChar_not_ws (c : Char) (h : isWS c = false) :
    isWS (pyUpperChar c) = false := by
  unfold pyUpperChar
  split_ifs with hr
  · have hv : (Char.ofNat (c.toNat - 32)).toNat = c.toNat - 32 :=
      toNat_ofNat_valid _ (by omega)
    exact isWS_false_of_range _ (by omega) (by omega)
  · exact h

theorem pyUpperChar_ne_space (c : Char) (h : isWS c = false) : pyUpperChar c ≠ ' ' := by
  intro he
  have hws := pyUpperChar_not_ws c h
  rw [he] at hws
  exact absurd hws (by decide)

theorem splitWSAux_sound (cs : List Char) :
    ∀ acc, (∀ c ∈ acc, isWS c = false) →
      ∀ t ∈ splitWSAux cs acc, t ≠ [] ∧ ∀ c ∈ t, isWS c = false := by
  induction cs with
  | nil =>
    intro acc hacc t ht
    unfold splitWSAux at ht
    split at ht
    · simp at ht
    · rename_i hne
      replace hne : acc ≠ [] := by simpa using hne
      simp only [List.mem_singleton] at ht
      subst ht
      refine ⟨by simpa [List.reverse_eq_nil_iff] using hne, ?_⟩
      intro c hc
      exact hacc c (List.mem_reverse.mp hc)
  | cons a cs ih =>
    intro acc hacc t ht
    unfold splitWSAux at ht
    split at ht
    · split at ht
      · exact ih [] (by simp) t ht
      · rename_i hne
        replace hne : acc ≠ [] := by simpa using hne
        rcases List.mem_cons.mp ht with h | h
        · subst h
          refine ⟨by simpa [List.reverse_eq_nil_iff] using hne, ?_⟩
          intro c hc
          exact hacc c (List.mem_reverse.mp hc)
        · exact ih [] (by simp) t h
    · rename_i hws
      refine ih (a :: acc) ?_ t ht
      intro c hc
      rcases List.mem_cons.mp hc with h | h
      · subst h
        simpa using hws
      · exact hacc c h

theorem splitWS_sound (cs : List Char) :
    ∀ t ∈ splitWS cs, t ≠ [] ∧ ∀ c ∈ t, isWS c = false :=
  splitWSAux_sound cs [] (by simp)

theorem filter_map_token (t : List Char) (h : ∀ c ∈ t, isWS c = false) :
    (t.map pyUpperChar).filter (fun c => c ≠ ' ') = t.map pyUpperChar := by
  apply List.filter_eq_self.mpr
  intro b hb
  rcases List.mem_map.mp hb with ⟨c, hc, rfl⟩
  exact decide_eq_true (pyUpperChar_ne_space c (h c hc))

theorem filter_joinSpace (ts : List (List Char))
    (h : ∀ tk ∈ ts, ∀ c ∈ tk, isWS c = false) :
    ((joinSpace ts).map pyUpperChar).filter (fun c => c ≠ ' ') =
      (ts.map (List.map pyUpperChar)).flatten := by
  induction ts with
  | nil => rfl
  | cons t rest ih =>
    cases rest with
    | nil =>
      show ((joinSpace [t]).map pyUpperChar).filter (fun c => c ≠ ' ') = _
      have hj : joinSpace [t] = t := rfl
      rw [hj]
      rw [filter_map_token t (h t (by simp))]
      simp
    | cons t2 rest2 =>
      have hj : joinSpace (t :: t2 :: rest2) = t ++ ' ' :: joinSpace (t2 :: rest2) := rfl
      rw [hj, List.map_append, List.filter_append]
      have hcons : (' ' :: joinSpace (t2 :: rest2)).map pyUpperChar =
          ' ' :: (joinSpace (t2 :: rest2)).map pyUpperChar := by
        simp [pyUpperChar_space]
      rw [hcons, List.filter_cons]
      have hsp : (decide ¬ (' ' = ' ')) = false := by decide
      rw [filter_map_token t (h t (by simp))]
      rw [ih (fun tk htk c hc => h tk (List.mem_cons_of_mem _ htk) c hc)]
      simp

theorem filter_dropWhile_ws (l : List Char) (hl : ∀ c ∈ l, isWS c = true → c = ' ') :
    (l.dropWhile (fun c => isWS c)).filter (fun c => c ≠ ' ') =
      l.filter (fun c => c ≠ ' ') := by
  induction l with
  | nil => rfl
  | cons a l ih =>
    rw [List.dropWhile_cons]
    by_cases ha : isWS a = true
    · rw [if_pos ha]
      have ha' : a = ' ' := hl a (List.mem_cons_self a l) ha
      subst ha'
      rw [List.filter_cons]
      have hsp : (decide ¬ (' ' = ' ')) = false := by decide
      rw [hsp]
      simp only [Bool.false_eq_true, if_false]
      exact ih (fun c hc hw => hl c (List.mem_cons_of_mem _ hc) hw)
    · rw [if_neg ha]

theorem filter_pyStripL (l : List Char) (hl : ∀ c ∈ l, isWS c = true → c = ' ') :
    (pyStripL l).filter (fun c => c ≠ ' ') = l.filter (fun c => c ≠ ' ') := by
  unfold pyStripL
  rw [List.filter_reverse]
  rw [filter_dropWhile_ws ((l.dropWhile (fun c => isWS c)).reverse)
    (fun c hc hw => hl c ((List.dropWhile_sublist _).subset (List.mem_reverse.mp hc)) hw)]
  rw [List.filter_reverse, List.reverse_reverse]
  exact filter_dropWhile_ws l hl

theorem mem_joinSpace (ts : List (List Char)) (c : Char) (hc : c ∈ joinSpace ts) :
    (∃ tk ∈ ts, c ∈ tk) ∨ c = ' ' := by
  induction ts with
  | nil => simp [joinSpace] at hc
  | cons t rest ih =>
    cases rest with
    | nil => exact Or.inl ⟨t, List.mem_cons_self t [], hc⟩
    | cons t2 r2 =>
      have hj : joinSpace (t :: t2 :: r2) = t ++ ' ' :: joinSpace (t2 :: r2) := rfl
      rw [hj] at hc
      rcases List.mem_append.mp hc with h | h
      · exact Or.inl ⟨t, List.mem_cons_self t _, h⟩
      · rcases List.mem_cons.mp h with h | h
        · exact Or.inr h
        · rcases ih h with ⟨tk, htk, hctk⟩ | hsp
          · exact Or.inl ⟨tk, List.mem_cons_of_mem _ htk, hctk⟩
          · exact Or.inr hsp

theorem ws_imp_space_mapUpper (ts : List (List Char))
    (h : ∀ tk ∈ ts, ∀ c ∈ tk, isWS c = false) :
    ∀ c ∈ (joinSpace ts).map pyUpperChar, isWS c = true → c = ' ' := by
  intro c hc hws
  rcases List.mem_map.mp hc with ⟨c0, hc0, rfl⟩
  rcases mem_joinSpace ts c0 hc0 with ⟨tk, htk, hctk⟩ | hsp
  · rw [pyUpperChar_not_ws c0 (h tk htk c0 hctk)] at hws
    exact absurd hws (by decide)
  · rw [hsp, pyUpperChar_space]

/-- The payload computed by the parser (join with spaces, upper-case, strip,
remove spaces) equals the upper-cased concatenation of the tokens, for
whitespace-free tokens. -/
theorem payload_eq (ts : List (List Char))
    (h : ∀ tk ∈ ts, ∀ c ∈ tk, isWS c = false) :
    (pyStripL ((joinSpace ts).map pyUpperChar)).filter (fun c => c ≠ ' ') =
      (ts.flatten).map pyUpperChar := by
  rw [filter_pyStripL _ (ws_imp_space_mapUpper ts h), filter_joinSpace ts h,
    List.map_flatten]

/-- The parser contract in the specification's words: split the line on
whitespace; fail when fewer than two tokens exist, the first token does not
parse as a decimal number, the remaining tokens concatenated and upper-cased
contain a non-hex character, or the resulting hex string is empty; on
success return the timestamp together with the concatenated upper-cased
payload (internal whitespace removed by the tokenisation). -/
def parseLineSpec (line : String) : Option (ℚ × List Char) :=
  match splitWS line.data with
  | [] => none
  | t :: ts =>
    if ts.isEmpty then none
    else
      match parseDecimal? t with
      | none => none
      | some τ =>
        if ((ts.flatten).map pyUpperChar).isEmpty ∨
            ¬ ((ts.flatten).map pyUpperChar).all isHexChar then none
        else some (τ, (ts.flatten).map pyUpperChar)

/-- The parser refines its contract: projecting the parse result to
(timestamp, payload characters) gives exactly `parseLineSpec`. -/
theorem parse_eq_spec (line : String) :
    (parse_ads_b_line line).map (fun r => (r.1.timestamp, r.2.2.data)) =
      parseLineSpec line := by
  unfold parse_ads_b_line parseLineSpec
  cases hsp : splitWS line.data with
  | nil => rfl
  | cons t ts =>
    dsimp only
    by_cases hts : ts.isEmpty
    · rw [if_pos hts, if_pos hts]
      rfl
    · rw [if_neg hts, if_neg hts]
      cases hpd : parseDecimal? t with
      | none => rfl
      | some τ =>
        dsimp only
        have htok : ∀ tk ∈ ts, ∀ c ∈ tk, isWS c = false := by
          intro tk htk c hc
          exact (splitWS_sound line.data tk
            (by rw [hsp]; exact List.mem_cons_of_mem _ htk)).2 c hc
        have hpe := payload_eq ts htok
        rw [hpe]
        by_cases hbad : ((ts.flatten).map pyUpperChar).isEmpty ∨
            ¬ ((ts.flatten).map pyUpperChar).all isHexChar
        · rw [if_pos hbad, if_pos hbad]
          rfl
        · rw [if_neg hbad, if_neg hbad]
          rfl

/-- C8: the line parser either succeeds, returning the timestamp parsed
from the first token and the remaining tokens concatenated, upper-cased,
with internal whitespace removed, or returns nothing; and it fails exactly
when fewer than two tokens exist, the first token does not parse as a
decimal number, the concatenated upper-cased payload contains a non-hex
character, or the payload is empty. -/
theorem c8_parser_contract (line : String) :
    (parse_ads_b_line line).map (fun r => (r.1.timestamp, r.2.2.data)) =
      parseLineSpec line :=
  parse_eq_spec line

/-- C4 (amended): a line whose payload tokens concatenate to an odd-length
hex string is NOT treated as malformed — whenever at least two tokens exist,
the first parses as a decimal number and the concatenated upper-cased
payload is a non-empty hex string, the parser succeeds regardless of the
parity of the payload length (a trailing lone hex digit is read as its own
byte); only the four listed conditions cause a line to be skipped. -/
theorem c4_parser_accepts_oddlen (line : String) (t : List Char)
    (ts : List (List Char)) (τ : ℚ)
    (hsplit : splitWS line.data = t :: ts) (hne : ts.isEmpty = false)
    (hts : parseDecimal? t = some τ)
    (hpl : ((ts.flatten).map pyUpperChar).isEmpty = false)
    (hhex : ((ts.flatten).map pyUpperChar).all isHexChar = true) :
    ∃ msg sp mstr, parse_ads_b_line line = some (msg, sp, mstr) ∧
      msg.timestamp = τ ∧ mstr.data = (ts.flatten).map pyUpperChar := by
  have hspec : parseLineSpec line = some (τ, (ts.flatten).map pyUpperChar) := by
    unfold parseLineSpec
    rw [hsplit]
    dsimp only
    rw [if_neg (by rw [hne]; exact Bool.false_ne_true), hts]
    dsimp only
    rw [if_neg (by rw [hpl, hhex]; simp)]
  have h := parse_eq_spec line
  rw [hspec] at h
  rcases Option.map_eq_some'.mp h with ⟨r, hr, hproj⟩
  rcases r with ⟨msg, sp, mstr⟩
  refine ⟨msg, sp, mstr, hr, ?_, ?_⟩
  · exact congrArg Prod.fst hproj
  · exact congrArg Prod.snd hproj

/-- Counterexample for C4 as stated: the line `"123 ABC"` has an odd-length
(3-character) hex payload, yet the parser succeeds instead of skipping the
line, reading the trailing digit `C` as the byte 12. -/
theorem c4_oddlen_counterexample :
    parse_ads_b_line "123 ABC" = some (⟨123, [171, 12], 2⟩, "ABC", "ABC") ∧
    "ABC".length % 2 = 1 := by
  constructor
  · decide
  · decide

/-- Witness for C4 (amended): the odd-length payload line `"123 ABC"`
satisfies the hypotheses and parses successfully. -/
theorem c4_parser_accepts_oddlen_witness :
    ∃ msg sp mstr, parse_ads_b_line "123 ABC" = some (msg, sp, mstr) ∧
      msg.timestamp = 123 ∧ mstr.data = ((['A','B','C'] : List Char)) := by
  have h := c4_parser_accepts_oddlen "123 ABC" ['1','2','3'] [['A','B','C']] 123
    (by decide) (by decide) (by decide) (by decide) (by decide)
  simpa using h
